import Mathlib

/-
  Verification of the UIRBcorelib runtime core: a shallow embedding of the
  persistent configuration store (EEPROMDataManager.cpp), the power state
  estimator (PowerInfoData.cpp) and the sleep/wake controller (UIRBcore.cpp),
  together with theorems about their specified behaviour.

  Machine integers are modelled as Nat with explicit reductions modulo 2^8,
  2^16 or 2^32 exactly where the C code performs a narrowing cast or relies
  on unsigned wraparound.
-/

namespace uirbcore

/-- Sentinel for an invalid current measurement, UIRB::INVALID_CURRENT_MILIAMPS = UINT16_MAX. -/
def INVALID_CURRENT_MILIAMPS : Nat := 65535

/-- Sentinel for an indeterminate current, UIRB::UNKNOWN_CURRENT_MILIAMPS = UINT16_MAX - 1. -/
def UNKNOWN_CURRENT_MILIAMPS : Nat := 65534

/-- Sentinel for an invalid voltage measurement, UIRB::INVALID_VOLTAGE_MILIVOLTS = UINT16_MAX. -/
def INVALID_VOLTAGE_MILIVOLTS : Nat := 65535

/-- Arduino pin mode INPUT. -/
def INPUT : Nat := 0

/-- Arduino pin mode OUTPUT. -/
def OUTPUT : Nat := 1

/-- Arduino pin mode INPUT_PULLUP. -/
def INPUT_PULLUP : Nat := 2

/-- Sentinel for an unrecognised pin mode, Utility.hpp INVALID_PIN_MODE = 0xFF. -/
def INVALID_PIN_MODE : Nat := 255

/-- UIRB::PROG_CC_CHARGE_VOLTAGE_MAX_MV, upper PROG-pin voltage of constant-current charging. -/
def PROG_CC_CHARGE_VOLTAGE_MAX_MV : Nat := 1100

/-- UIRB::PROG_CC_CHARGE_VOLTAGE_MIN_MV, lower PROG-pin voltage of constant-current charging. -/
def PROG_CC_CHARGE_VOLTAGE_MIN_MV : Nat := 900

/-- UIRB::PROG_CV_CHARGE_VOLTAGE_MIN_MV, lower PROG-pin voltage of constant-voltage charging. -/
def PROG_CV_CHARGE_VOLTAGE_MIN_MV : Nat := 100

/-- UIRB::PROG_FLOAT_VOLTAGE_MAX_MV, PROG-pin voltage below which the charger is off. -/
def PROG_FLOAT_VOLTAGE_MAX_MV : Nat := 15

/-- UIRB::FULLY_CHARGED_SUPPLY_VOLTAGE_MIN_MV, default 4150 mV. -/
def FULLY_CHARGED_SUPPLY_VOLTAGE_MIN_MV : Nat := 4150

/-- UIRB::FLOAT_VOLTAGE_RECHARGE_MIN_MV = 4150 - 150 = 4000 mV. -/
def FLOAT_VOLTAGE_RECHARGE_MIN_MV : Nat :=
  FULLY_CHARGED_SUPPLY_VOLTAGE_MIN_MV - 150

/-- UIRB::BATTERY_EMPTY_SUPPLY_VOLTAGE_MIN_MV, default 3400 mV. -/
def BATTERY_EMPTY_SUPPLY_VOLTAGE_MIN_MV : Nat := 3400

/-- EEPROMDataManager::INVALID_CHARGER_PROG_RESISTANCE = 1 ohm. -/
def INVALID_CHARGER_PROG_RESISTANCE : Nat := 1

/-- EEPROMDataManager::CHARGER_PROG_RESISTANCE_MIN = 3333 ohm. -/
def CHARGER_PROG_RESISTANCE_MIN : Nat := 3333

/-- EEPROMDataManager::UIRB_SERIAL_NUMBER_MAX = 9999. -/
def UIRB_SERIAL_NUMBER_MAX : Nat := 9999

/-- EEPROMDataManager::INVALID_UIRB_SERIAL_NUMBER = UINT16_MAX. -/
def INVALID_UIRB_SERIAL_NUMBER : Nat := 65535

/-- Twos-complement value of a byte interpreted as int8_t. -/
def int8Val (b : Nat) : Int :=
  if b % 256 < 128 then (b % 256 : Int) else (b % 256 : Int) - 256

/-- Narrowing static_cast to int8_t of an unsigned 16-bit value: keep the low byte. -/
def toInt8Byte (n : Nat) : Nat := n % 256

/-- Narrowing static_cast to uint16_t of a signed value: twos-complement wraparound. -/
def uint16OfInt (i : Int) : Nat := (i % 65536).toNat

/-- Result codes of core operations, UIRBcore.hpp enum class CoreResult. -/
inductive CoreResult where
  | SUCCESS
  | ERROR_NOT_INITIALIZED
  | ERROR_INVALID_ARGUMENT
  | ERROR_EEPROM_HW_VER_MISMATCH
  | ERROR_EEPROM_CHARGER_PROG_RESISTANCE_INVALID
  | ERROR_EEPROM_SAVE_FAILED
deriving DecidableEq, Repr

/-- Bitfield union SoftwareConfig of UIRBcore_EEPROM.hpp: eight one-bit flags. -/
structure SoftwareConfig where
  avr_serial_debugger_enabled : Bool
  sleep_mode_allowed : Bool
  sleep_mode_io3_wakeup_enabled : Bool
  boot_count_increment_enabled : Bool
  reserved_config_1 : Bool
  reserved_config_2 : Bool
  reserved_config_3 : Bool
  reserved_config_4 : Bool
deriving DecidableEq, Repr

/-- Bitfield union HardwareManufactureDate: 4-bit year offset from 2020 and 4-bit month. -/
structure HardwareManufactureDate where
  year_offset_from_2020 : Nat
  month : Nat
deriving DecidableEq, Repr

/-- Bitfield union SerialNumber: 14-bit serial number and two reserved bits, where
reserved_bit_1 doubles as the unknown-serial marker. -/
structure SerialNumber where
  number : Nat
  reserved_bit_0 : Nat
  reserved_bit_1 : Nat
deriving DecidableEq, Repr

/-- Persistent record EEPROMData of UIRBcore_EEPROM.hpp. The int8_t field
bandgap_1v1_reference_offset is stored as its raw byte (0-255); the char array
is a list of byte values. -/
structure EEPROMData where
  hardware_version_byte : Nat
  bandgap_1v1_reference_offset : Nat
  stat_led_brightness : Nat
  charger_prog_resistor_ohms : Nat
  software_config : SoftwareConfig
  hardware_manufacture_date : HardwareManufactureDate
  boot_count : Nat
  uirb_serial_number : SerialNumber
  factory_cp2104_usb_serial_number : List Nat
deriving DecidableEq, Repr

/-- EEPROMDataManager::get_bandgap_reference_milivolts: uint16_t cast of
1100 + stored int8 offset (EEPROMDataManager.cpp lines 183-186). -/
def get_bandgap_reference_milivolts (d : EEPROMData) : Nat :=
  uint16OfInt (1100 + int8Val d.bandgap_1v1_reference_offset)

/-- Lower bound used by the bandgap setter: the 16-bit unsigned evaluation of
the C expression 1100U + INT8_MIN, which wraps to 972. -/
def BANDGAP_SET_MIN_MV : Nat := (1100 + (65536 - 128)) % 65536

/-- Upper bound used by the bandgap setter: 1100U + INT8_MAX = 1227. -/
def BANDGAP_SET_MAX_MV : Nat := 1100 + 127

/-- EEPROMDataManager::set_bandgap_reference_milivolts (EEPROMDataManager.cpp
lines 188-197): rejects values outside the representable window, otherwise
stores the int8 narrowing of milivolts - 1100 (16-bit unsigned subtraction). -/
def set_bandgap_reference_milivolts (d : EEPROMData) (milivolts : Nat) :
    Bool × EEPROMData :=
  if milivolts < BANDGAP_SET_MIN_MV ∨ BANDGAP_SET_MAX_MV < milivolts then
    (false, d)
  else
    (true,
      { d with
          bandgap_1v1_reference_offset := toInt8Byte ((milivolts + 65536 - 1100) % 65536) })

/-- EEPROMDataManager::get_charger_prog_resistor_ohms (lines 209-214): stored
values at or below the minimum read back as the invalid sentinel. -/
def get_charger_prog_resistor_ohms (d : EEPROMData) : Nat :=
  if d.charger_prog_resistor_ohms ≤ CHARGER_PROG_RESISTANCE_MIN then
    INVALID_CHARGER_PROG_RESISTANCE
  else
    d.charger_prog_resistor_ohms

/-- EEPROMDataManager::set_charger_prog_resistor_ohms (lines 216-226): rejects
values strictly below the minimum, stores anything else. -/
def set_charger_prog_resistor_ohms (d : EEPROMData) (ohms : Nat) :
    Bool × EEPROMData :=
  if ohms < CHARGER_PROG_RESISTANCE_MIN then
    (false, d)
  else
    (true, { d with charger_prog_resistor_ohms := ohms })

/-- EEPROMDataManager::increment_boot_count (lines 314-324): no-op returning
false when the feature flag is off or the counter is at UINT32_MAX, else
increments by one (uint32 arithmetic). -/
def increment_boot_count (d : EEPROMData) : Bool × EEPROMData :=
  if ¬ d.software_config.boot_count_increment_enabled ∨
      d.boot_count = 4294967295 then
    (false, d)
  else
    (true, { d with boot_count := (d.boot_count + 1) % 4294967296 })

/-- EEPROMDataManager::get_uirb_board_serial_number (lines 326-332):
reserved_bit_1 set or 14-bit payload above the maximum reads back invalid. -/
def get_uirb_board_serial_number (d : EEPROMData) : Nat :=
  if d.uirb_serial_number.reserved_bit_1 = 1 ∨
      UIRB_SERIAL_NUMBER_MAX < d.uirb_serial_number.number then
    INVALID_UIRB_SERIAL_NUMBER
  else
    d.uirb_serial_number.number

/-- EEPROMDataManager::set_uirb_board_serial_number (lines 334-342): rejects 0
and values above the maximum, else writes the 14-bit payload field. -/
def set_uirb_board_serial_number (d : EEPROMData) (serial_number : Nat) :
    Bool × EEPROMData :=
  if serial_number = 0 ∨ UIRB_SERIAL_NUMBER_MAX < serial_number then
    (false, d)
  else
    (true,
      { d with
          uirb_serial_number :=
            { d.uirb_serial_number with number := serial_number % 16384 } })

/-- Concrete record mirroring DEBUG_EEPROM_DATA of UIRBcore_EEPROM.hpp
(hardware version 0.0, zero offset, brightness 0, invalid resistor, all flags
clear, date byte 0xFF, boot count UINT32_MAX, serial UINT16_MAX, debug USB
serial bytes). The 16-bit serial 0xFFFF splits into a 14-bit payload 16383 and
two set reserved bits. -/
def DEBUG_EEPROM_DATA : EEPROMData :=
  { hardware_version_byte := 0
    bandgap_1v1_reference_offset := 0
    stat_led_brightness := 0
    charger_prog_resistor_ohms := 1
    software_config :=
      { avr_serial_debugger_enabled := false
        sleep_mode_allowed := false
        sleep_mode_io3_wakeup_enabled := false
        boot_count_increment_enabled := false
        reserved_config_1 := false
        reserved_config_2 := false
        reserved_config_3 := false
        reserved_config_4 := false }
    hardware_manufacture_date := { year_offset_from_2020 := 15, month := 15 }
    boot_count := 4294967295
    uirb_serial_number := { number := 16383, reserved_bit_0 := 1, reserved_bit_1 := 1 }
    factory_cp2104_usb_serial_number := [69, 69, 80, 68, 66, 71, 61, 49] }

/-- Charger states, UIRBcore_PowerInfoData.hpp enum class ChargerState. -/
inductive ChargerState where
  | ERROR
  | UNKNOWN
  | CHARGING_CC
  | CHARGING_CV
  | FLOATING
  | TURNED_OFF
deriving DecidableEq, Repr

/-- Battery states, UIRBcore_PowerInfoData.hpp enum class BatteryState. -/
inductive BatteryState where
  | ERROR
  | UNKNOWN
  | EMPTY
  | NOT_CHARGING
  | CHARGING
  | FULLY_CHARGED
deriving DecidableEq, Repr

/-- PowerInfoData::prog_milivolts_to_charging_current_miliamps
(PowerInfoData.cpp lines 313-367). Derives the charging current from the PROG
pin voltage, the configured resistor and the pin mode/state. The computed
uint32 current is narrowed to uint16 on return. -/
def prog_milivolts_to_charging_current_miliamps
    (prog_milivolts prog_resistor_ohms prog_pin_mode : Nat)
    (prog_pin_state : Bool) : Nat :=
  if prog_milivolts = INVALID_VOLTAGE_MILIVOLTS ∨
      prog_resistor_ohms = INVALID_CHARGER_PROG_RESISTANCE ∨
      prog_resistor_ohms = 0 ∨ prog_pin_mode = INVALID_PIN_MODE then
    INVALID_CURRENT_MILIAMPS
  else if prog_pin_mode = OUTPUT then
    if prog_pin_state then 0 else UNKNOWN_CURRENT_MILIAMPS
  else if prog_pin_mode = INPUT_PULLUP then
    UNKNOWN_CURRENT_MILIAMPS
  else if prog_pin_mode = INPUT then
    if PROG_CC_CHARGE_VOLTAGE_MAX_MV < prog_milivolts ∨
        prog_milivolts < PROG_FLOAT_VOLTAGE_MAX_MV then
      0
    else
      (if prog_milivolts * 1000 / prog_resistor_ohms = 0 then 1
       else prog_milivolts * 1000 / prog_resistor_ohms) % 65536
  else
    INVALID_CURRENT_MILIAMPS

/-- Cached measurement fields of class PowerInfoData
(UIRBcore_PowerInfoData.hpp private members). -/
structure PowerInfoState where
  supply_voltage_milivolts_ : Nat
  prog_voltage_milivolts_ : Nat
  prog_pin_mode_ : Nat
  prog_pin_state_ : Bool
  charging_current_miliamps_ : Nat
  estimated_charger_state_ : ChargerState
  estimated_battery_state_ : BatteryState
deriving DecidableEq, Repr

/-- PowerInfoData::isBatteryCharging (PowerInfoData.cpp lines 243-247). -/
def PowerInfoState.isBatteryCharging (s : PowerInfoState) : Bool :=
  if s.estimated_charger_state_ = ChargerState.CHARGING_CV ∨
      s.estimated_charger_state_ = ChargerState.CHARGING_CC then true else false

/-- PowerInfoData::isBatteryFull (PowerInfoData.cpp lines 232-241). -/
def PowerInfoState.isBatteryFull (s : PowerInfoState) : Bool :=
  if s.supply_voltage_milivolts_ = INVALID_VOLTAGE_MILIVOLTS then false
  else if FLOAT_VOLTAGE_RECHARGE_MIN_MV ≤ s.supply_voltage_milivolts_ then true
  else false

/-- PowerInfoData::isBatteryLow (PowerInfoData.cpp lines 212-230), without the
status-LED side effect of its optional argument. -/
def PowerInfoState.isBatteryLow (s : PowerInfoState) : Bool :=
  if s.supply_voltage_milivolts_ = INVALID_VOLTAGE_MILIVOLTS then true
  else if s.supply_voltage_milivolts_ < BATTERY_EMPTY_SUPPLY_VOLTAGE_MIN_MV then true
  else false

/-- PowerInfoData::get_estimated_charger_state (PowerInfoData.cpp lines
148-210): the ordered threshold classification of the cached measurements. -/
def PowerInfoState.get_estimated_charger_state (s : PowerInfoState) :
    ChargerState :=
  if s.charging_current_miliamps_ = INVALID_CURRENT_MILIAMPS ∨
      s.prog_voltage_milivolts_ = INVALID_VOLTAGE_MILIVOLTS ∨
      s.supply_voltage_milivolts_ = INVALID_VOLTAGE_MILIVOLTS then
    ChargerState.ERROR
  else if s.charging_current_miliamps_ = UNKNOWN_CURRENT_MILIAMPS then
    ChargerState.UNKNOWN
  else if PROG_CC_CHARGE_VOLTAGE_MIN_MV ≤ s.prog_voltage_milivolts_ then
    if FULLY_CHARGED_SUPPLY_VOLTAGE_MIN_MV ≤ s.supply_voltage_milivolts_ then
      ChargerState.UNKNOWN
    else
      ChargerState.CHARGING_CC
  else if PROG_CV_CHARGE_VOLTAGE_MIN_MV ≤ s.prog_voltage_milivolts_ then
    if s.supply_voltage_milivolts_ ≤ FLOAT_VOLTAGE_RECHARGE_MIN_MV then
      ChargerState.UNKNOWN
    else
      ChargerState.CHARGING_CV
  else if FLOAT_VOLTAGE_RECHARGE_MIN_MV ≤ s.supply_voltage_milivolts_ then
    ChargerState.FLOATING
  else if s.charging_current_miliamps_ = 0 then
    ChargerState.TURNED_OFF
  else
    ChargerState.UNKNOWN

/-- PowerInfoData::get_estimated_battery_state (PowerInfoData.cpp lines
108-146), reading the cached estimated_charger_state_. -/
def PowerInfoState.get_estimated_battery_state (s : PowerInfoState) :
    BatteryState :=
  if s.supply_voltage_milivolts_ = INVALID_VOLTAGE_MILIVOLTS ∨
      s.estimated_charger_state_ = ChargerState.ERROR then
    BatteryState.ERROR
  else if s.isBatteryCharging then
    BatteryState.CHARGING
  else if s.estimated_charger_state_ = ChargerState.FLOATING ∨ s.isBatteryFull then
    BatteryState.FULLY_CHARGED
  else if s.isBatteryLow then
    BatteryState.EMPTY
  else if s.estimated_charger_state_ = ChargerState.TURNED_OFF ∧ ¬ s.isBatteryFull then
    BatteryState.NOT_CHARGING
  else
    BatteryState.UNKNOWN

/-- Inputs that PowerInfoData::update obtains from the UIRB facade and the
analog sampling port during one call: the initialization result consulted via
begin(), the two averaged voltage samples, the PROG pin mode and digital
level, and the configured charger resistor resistance. -/
structure PowerEnv where
  beginResult : CoreResult
  supplySample : Nat
  progSample : Nat
  pinMode : Nat
  pinState : Bool
  resistor : Nat
deriving DecidableEq, Repr

/-- PowerInfoData::update (PowerInfoData.cpp lines 50-93). The three sampled
fields are overwritten before validity is known; pin state and charging
current are written when the first three samples are valid; the derived
charger and battery states are recomputed only when everything is valid. -/
def PowerInfoState.update (s : PowerInfoState) (env : PowerEnv)
    (samples : Nat) : Bool × PowerInfoState :=
  if ¬ env.beginResult = CoreResult.SUCCESS ∨ samples = 0 then
    (false, s)
  else
    let s1 :=
      { s with
          supply_voltage_milivolts_ := env.supplySample
          prog_voltage_milivolts_ := env.progSample
          prog_pin_mode_ := env.pinMode }
    if env.supplySample ≠ INVALID_VOLTAGE_MILIVOLTS ∧
        env.progSample ≠ INVALID_VOLTAGE_MILIVOLTS ∧
        env.pinMode ≠ INVALID_PIN_MODE then
      let s2 :=
        { s1 with
            prog_pin_state_ := env.pinState
            charging_current_miliamps_ :=
              prog_milivolts_to_charging_current_miliamps
                env.progSample env.resistor env.pinMode env.pinState }
      if s2.charging_current_miliamps_ ≠ INVALID_CURRENT_MILIAMPS then
        let s3 := { s2 with estimated_charger_state_ := s2.get_estimated_charger_state }
        let s4 := { s3 with estimated_battery_state_ := s3.get_estimated_battery_state }
        (true, s4)
      else
        (false, s2)
    else
      (false, s1)

/-- Wakeup flags of class UIRB (UIRBcore.hpp): the two externally visible
flags and the two internal flags used by powerDown. -/
structure WakeFlags where
  isr_wakeup_button_flag_ : Bool
  isr_wakeup_io3_flag_ : Bool
  isr_wakeup_button_flag_internal_ : Bool
  isr_wakeup_io3_flag_internal_ : Bool
deriving DecidableEq, Repr

/-- UIRB::button_wakeup_isr (UIRBcore.cpp lines 146-153): sets the external
and internal button wakeup flags. -/
def button_wakeup_isr (f : WakeFlags) : WakeFlags :=
  { f with
      isr_wakeup_button_flag_ := true
      isr_wakeup_button_flag_internal_ := true }

/-- UIRB::usb_io3_wakeup_isr (UIRBcore.cpp lines 155-162): sets the external
IO3 flag and, as written in the source, the BUTTON internal flag
(isr_wakeup_button_flag_internal_); it never touches
isr_wakeup_io3_flag_internal_. -/
def usb_io3_wakeup_isr (f : WakeFlags) : WakeFlags :=
  { f with
      isr_wakeup_io3_flag_ := true
      isr_wakeup_button_flag_internal_ := true }

/-- Wake handling of UIRB::powerDown (UIRBcore.cpp lines 307-309 and 363-411)
for one sleep cycle: reset the internal flags and the PCINT2 module flag, let
the attached interrupt handlers run for the edge sources that fired during the
cycle (the INT0 handler is button_wakeup_isr; the PCINT2_vect handler only
raises pcint2_interrupt_flag, and powerDown then calls usb_io3_wakeup_isr
manually), then invoke the user callbacks gated by the internal flags, button
first. Returns whether the button callback ran, whether the IO3 callback ran,
and the final flag state. -/
def powerDownWakePhase (attachWake attachIO3 buttonFired io3Fired
    hasButtonCallback hasIo3Callback : Bool) (f : WakeFlags) :
    Bool × Bool × WakeFlags :=
  let f0 :=
    { f with
        isr_wakeup_button_flag_internal_ := false
        isr_wakeup_io3_flag_internal_ := false }
  let f1 := if attachWake && buttonFired then button_wakeup_isr f0 else f0
  let pcint2 := attachIO3 && io3Fired
  let f2 := if pcint2 then usb_io3_wakeup_isr f1 else f1
  let buttonInvoked := f2.isr_wakeup_button_flag_internal_ && hasButtonCallback
  let f3 := { f2 with isr_wakeup_button_flag_internal_ := false }
  let io3Invoked := attachIO3 && f3.isr_wakeup_io3_flag_internal_ && hasIo3Callback
  let f4 := { f3 with isr_wakeup_io3_flag_internal_ := false }
  (buttonInvoked, io3Invoked, f4)

/-- Watchdog interval table of UIRB::powerDown (UIRBcore.cpp line 304),
indexed by wdt_period: {16, 32, 64, 125, 250, 500, 1000, 2000, 4000, 8000} ms. -/
def wdtInterval (i : Nat) : Nat :=
  if i = 0 then 16
  else if i = 1 then 32
  else if i = 2 then 64
  else if i = 3 then 125
  else if i = 4 then 250
  else if i = 5 then 500
  else if i = 6 then 1000
  else if i = 7 then 2000
  else if i = 8 then 4000
  else 8000

/-- The descending scan of UIRBcore.cpp lines 316-323: the largest index whose
interval is at most the remaining time, keeping the previous wdt_period when
the remaining time is below the smallest interval. -/
def choosePeriod (remaining prev : Nat) : Nat :=
  if 8000 ≤ remaining then 9
  else if 4000 ≤ remaining then 8
  else if 2000 ≤ remaining then 7
  else if 1000 ≤ remaining then 6
  else if 500 ≤ remaining then 5
  else if 250 ≤ remaining then 4
  else if 125 ≤ remaining then 3
  else if 64 ≤ remaining then 2
  else if 32 ≤ remaining then 1
  else if 16 ≤ remaining then 0
  else prev

/-- Bounded-sleep loop of UIRB::powerDown (UIRBcore.cpp lines 313-351),
returning the list of armed watchdog intervals. The oracle fired tells whether
an edge interrupt fired during the k-th armed interval; when it did, remaining
time is forced to zero, otherwise the armed interval is subtracted (floored at
zero). -/
def powerDownLoop (fired : Nat → Bool) (k remaining prev : Nat) : List Nat :=
  if _h : remaining = 0 then
    []
  else
    wdtInterval (choosePeriod remaining prev) ::
      powerDownLoop fired (k + 1)
        (if fired k then 0
         else if wdtInterval (choosePeriod remaining prev) < remaining then
           remaining - wdtInterval (choosePeriod remaining prev)
         else 0)
        (choosePeriod remaining prev)
termination_by remaining
decreasing_by
  have hpos : 0 < wdtInterval (choosePeriod remaining prev) := by
    unfold wdtInterval
    split_ifs <;> omega
  split
  · omega
  · split <;> omega

/-- Interval decomposition of UIRB::powerDown for a bounded sleep request
(UIRBcore.cpp lines 303-352): the loop runs only for a positive requested
duration, starting with wdt_period 0. -/
def powerDownIntervals (fired : Nat → Bool) (sleeptime_milliseconds : Nat) :
    List Nat :=
  if 0 < sleeptime_milliseconds then
    powerDownLoop fired 0 sleeptime_milliseconds 0
  else
    []

/-- State of the UIRB facade relevant to the persistence operations: the
sticky initialization result, the RAM mirror held by the EEPROMDataManager
member, and the non-volatile copy. -/
structure UIRBState where
  initializationResult_ : CoreResult
  eepromDataManager_ : EEPROMData
  eeprom_storage : EEPROMData
deriving DecidableEq, Repr

/-- UIRB::saveToEEPROM (UIRBcore.cpp lines 232-239): refuses when the cached
initialization result is not SUCCESS, otherwise performs the write-then-verify
EEPROMDataManager::save_to_eeprom/store_to_eeprom (EEPROMDataManager.cpp lines
168-171 and 379-387). -/
def UIRBState.saveToEEPROM (u : UIRBState) : Bool × UIRBState :=
  if ¬ u.initializationResult_ = CoreResult.SUCCESS then
    (false, u)
  else
    let u' := { u with eeprom_storage := u.eepromDataManager_ }
    (if u'.eeprom_storage = u.eepromDataManager_ then true else false, u')

/-- Void overload UIRB::setStatusLEDBrightness (UIRBcore.cpp lines 478-481):
writes the brightness into the RAM mirror unconditionally. -/
def UIRBState.setStatusLEDBrightness (u : UIRBState) (brightness : Nat) :
    UIRBState :=
  { u with
      eepromDataManager_ :=
        { u.eepromDataManager_ with stat_led_brightness := brightness } }

/-- Bool overload UIRB::setStatusLEDBrightness (UIRBcore.cpp lines 468-476):
writes the RAM mirror unconditionally, then optionally saves. -/
def UIRBState.setStatusLEDBrightnessSave (u : UIRBState) (brightness : Nat)
    (saveToEEPROM : Bool) : Bool × UIRBState :=
  let u1 := u.setStatusLEDBrightness brightness
  if ¬ saveToEEPROM then (false, u1) else u1.saveToEEPROM

/-- Void overload UIRB::setSleepingAllowed (UIRBcore.cpp lines 512-515):
writes the sleep-allowed flag into the RAM mirror unconditionally. -/
def UIRBState.setSleepingAllowed (u : UIRBState) (allowed : Bool) : UIRBState :=
  { u with
      eepromDataManager_ :=
        { u.eepromDataManager_ with
            software_config :=
              { u.eepromDataManager_.software_config with
                  sleep_mode_allowed := allowed } } }

/-- Concrete configured record used as a test fixture: matching defaults with
boot counting and sleeping enabled, a 5000 ohm charger resistor, boot count 41
and serial number 1234. -/
def sampleConfiguredData : EEPROMData :=
  { DEBUG_EEPROM_DATA with
      software_config :=
        { DEBUG_EEPROM_DATA.software_config with
            boot_count_increment_enabled := true
            sleep_mode_allowed := true }
      boot_count := 41
      charger_prog_resistor_ohms := 5000
      uirb_serial_number := { number := 1234, reserved_bit_0 := 0, reserved_bit_1 := 0 } }

theorem int8Val_lower (b : Nat) : -128 ≤ int8Val b := by
  unfold int8Val
  split <;> omega

theorem int8Val_upper (b : Nat) : int8Val b ≤ 127 := by
  unfold int8Val
  split <;> omega

theorem int8_store_roundtrip (mv : Nat) (h1 : 972 ≤ mv) (h2 : mv ≤ 1227) :
    int8Val (toInt8Byte ((mv + 65536 - 1100) % 65536)) = (mv : Int) - 1100 := by
  unfold int8Val toInt8Byte
  split <;> omega

/-- C8: set_bandgap_reference_milivolts succeeds and stores offset v - 1100
exactly for 972 <= v <= 1227, fails leaving the mirror unchanged otherwise,
and get_bandgap_reference_milivolts always returns 1100 plus the stored
offset with no failure case. -/
theorem C8_bandgap_setter_getter (d : EEPROMData) (mv : Nat)
    (hmv : mv ≤ 65535) :
    ((set_bandgap_reference_milivolts d mv).1 = true ↔ 972 ≤ mv ∧ mv ≤ 1227)
  ∧ (mv < 972 ∨ 1227 < mv → set_bandgap_reference_milivolts d mv = (false, d))
  ∧ (972 ≤ mv → mv ≤ 1227 →
      int8Val (set_bandgap_reference_milivolts d mv).2.bandgap_1v1_reference_offset
        = (mv : Int) - 1100)
  ∧ (get_bandgap_reference_milivolts d : Int)
      = 1100 + int8Val d.bandgap_1v1_reference_offset := by
  have hlo := int8Val_lower d.bandgap_1v1_reference_offset
  have hhi := int8Val_upper d.bandgap_1v1_reference_offset
  refine ⟨?_, ?_, ?_, ?_⟩
  · unfold set_bandgap_reference_milivolts BANDGAP_SET_MIN_MV BANDGAP_SET_MAX_MV
    split_ifs with h
    · simp only [Bool.false_eq_true, false_iff]
      omega
    · simp only [true_iff]
      omega
  · intro h
    unfold set_bandgap_reference_milivolts BANDGAP_SET_MIN_MV BANDGAP_SET_MAX_MV
    split_ifs with h2
    · rfl
    · omega
  · intro h1 h2
    unfold set_bandgap_reference_milivolts BANDGAP_SET_MIN_MV BANDGAP_SET_MAX_MV
    rw [if_neg (by omega)]
    exact int8_store_roundtrip mv h1 h2
  · unfold get_bandgap_reference_milivolts uint16OfInt
    omega

/-- C8 witness: setting 1044 mV succeeds and stores the offset -56, and the
getter recovers 1044 from that stored offset. -/
theorem C8_witness :
    (set_bandgap_reference_milivolts DEBUG_EEPROM_DATA 1044).1 = true
  ∧ int8Val (set_bandgap_reference_milivolts DEBUG_EEPROM_DATA 1044).2.bandgap_1v1_reference_offset
      = -56
  ∧ (get_bandgap_reference_milivolts
      (set_bandgap_reference_milivolts DEBUG_EEPROM_DATA 1044).2 : Int)
      = 1100 + int8Val (set_bandgap_reference_milivolts DEBUG_EEPROM_DATA 1044).2.bandgap_1v1_reference_offset := by
  have h := C8_bandgap_setter_getter DEBUG_EEPROM_DATA 1044 (by norm_num)
  have h2 := C8_bandgap_setter_getter
    (set_bandgap_reference_milivolts DEBUG_EEPROM_DATA 1044).2 1044 (by norm_num)
  refine ⟨h.1.mpr (by norm_num), ?_, h2.2.2.2⟩
  have h3 := h.2.2.1 (by norm_num) (by norm_num)
  omega

/-- C6 counterexample: at exactly 3333 ohm the setter succeeds even though
3333 is inside the invalid range of stored values, and the getter then
returns the invalid sentinel 1 rather than 3333. -/
theorem C6_counterexample :
    (set_charger_prog_resistor_ohms DEBUG_EEPROM_DATA 3333).1 = true
  ∧ get_charger_prog_resistor_ohms
      (set_charger_prog_resistor_ohms DEBUG_EEPROM_DATA 3333).2 ≠ 3333 := by
  constructor
  · rfl
  · decide

/-- C6 amended: set_charger_prog_resistor_ohms succeeds exactly for
r >= 3333 and fails leaving the mirror unchanged for r < 3333; after a
successful set of any r > 3333 the getter returns r; at r = 3333 exactly the
set succeeds but the getter returns the invalid sentinel. -/
theorem C6_resistor_set_get (d : EEPROMData) (r : Nat) (hr : r ≤ 65535) :
    ((set_charger_prog_resistor_ohms d r).1 = true ↔
      CHARGER_PROG_RESISTANCE_MIN ≤ r)
  ∧ (r < CHARGER_PROG_RESISTANCE_MIN →
      set_charger_prog_resistor_ohms d r = (false, d))
  ∧ (CHARGER_PROG_RESISTANCE_MIN < r →
      get_charger_prog_resistor_ohms (set_charger_prog_resistor_ohms d r).2 = r)
  ∧ ((set_charger_prog_resistor_ohms d CHARGER_PROG_RESISTANCE_MIN).1 = true
      ∧ get_charger_prog_resistor_ohms
          (set_charger_prog_resistor_ohms d CHARGER_PROG_RESISTANCE_MIN).2
          = INVALID_CHARGER_PROG_RESISTANCE) := by
  refine ⟨?_, ?_, ?_, ?_, ?_⟩
  · simp only [set_charger_prog_resistor_ohms, CHARGER_PROG_RESISTANCE_MIN]
    split_ifs with h
    · simp only [Bool.false_eq_true, false_iff]
      omega
    · simp only [true_iff]
      omega
  · intro h
    simp only [CHARGER_PROG_RESISTANCE_MIN] at h
    simp [set_charger_prog_resistor_ohms, CHARGER_PROG_RESISTANCE_MIN, h]
  · intro h
    simp only [CHARGER_PROG_RESISTANCE_MIN] at h
    have h1 : ¬ r < 3333 := by omega
    have h2 : ¬ r ≤ 3333 := by omega
    simp [set_charger_prog_resistor_ohms, get_charger_prog_resistor_ohms,
      CHARGER_PROG_RESISTANCE_MIN, h1, h2]
  · simp [set_charger_prog_resistor_ohms, CHARGER_PROG_RESISTANCE_MIN]
  · simp [set_charger_prog_resistor_ohms, get_charger_prog_resistor_ohms,
      CHARGER_PROG_RESISTANCE_MIN, INVALID_CHARGER_PROG_RESISTANCE]

/-- C6 witness: setting 5000 ohm succeeds and reads back as 5000. -/
theorem C6_witness :
    get_charger_prog_resistor_ohms
      (set_charger_prog_resistor_ohms DEBUG_EEPROM_DATA 5000).2 = 5000 :=
  (C6_resistor_set_get DEBUG_EEPROM_DATA 5000 (by norm_num)).2.2.1 (by decide)

/-- C9: increment_boot_count is a no-op returning false when the feature flag
is disabled or the counter is at UINT32_MAX, and otherwise increments the
counter by exactly one and returns true. -/
theorem C9_boot_count (d : EEPROMData) (hbc : d.boot_count ≤ 4294967295) :
    (¬ d.software_config.boot_count_increment_enabled = true →
      increment_boot_count d = (false, d))
  ∧ (d.boot_count = 4294967295 → increment_boot_count d = (false, d))
  ∧ (d.software_config.boot_count_increment_enabled = true →
      d.boot_count ≠ 4294967295 →
      (increment_boot_count d).1 = true
      ∧ (increment_boot_count d).2.boot_count = d.boot_count + 1) := by
  refine ⟨?_, ?_, ?_⟩
  · intro h
    unfold increment_boot_count
    rw [if_pos (Or.inl h)]
  · intro h
    unfold increment_boot_count
    rw [if_pos (Or.inr h)]
  · intro h1 h2
    unfold increment_boot_count
    rw [if_neg (by simp [h1, h2])]
    refine ⟨rfl, ?_⟩
    show (d.boot_count + 1) % 4294967296 = d.boot_count + 1
    omega

/-- C9 witness: with the flag enabled and counter 41, the increment succeeds
and yields 42; at the saturated counter it fails and leaves the record
unchanged. -/
theorem C9_witness :
    ((increment_boot_count sampleConfiguredData).1 = true
      ∧ (increment_boot_count sampleConfiguredData).2.boot_count = 41 + 1)
  ∧ increment_boot_count DEBUG_EEPROM_DATA = (false, DEBUG_EEPROM_DATA) :=
  ⟨(C9_boot_count sampleConfiguredData (by decide)).2.2 rfl (by decide),
   (C9_boot_count DEBUG_EEPROM_DATA (by decide)).2.1 (by decide)⟩

/-- C10: a stored serial record with reserved_bit_1 set, or with a 14-bit
payload above 9999, reads back as the invalid sentinel; the setter rejects 0
and values above 9999 leaving the mirror unchanged, succeeds exactly for
1 <= sn <= 9999, and then stores sn as the payload. -/
theorem C10_serial_number (d : EEPROMData) (sn : Nat) (hsn : sn ≤ 65535) :
    (d.uirb_serial_number.reserved_bit_1 = 1 →
      get_uirb_board_serial_number d = INVALID_UIRB_SERIAL_NUMBER)
  ∧ (UIRB_SERIAL_NUMBER_MAX < d.uirb_serial_number.number →
      get_uirb_board_serial_number d = INVALID_UIRB_SERIAL_NUMBER)
  ∧ ((set_uirb_board_serial_number d sn).1 = true ↔ 1 ≤ sn ∧ sn ≤ 9999)
  ∧ (sn = 0 ∨ 9999 < sn → set_uirb_board_serial_number d sn = (false, d))
  ∧ (1 ≤ sn → sn ≤ 9999 →
      (set_uirb_board_serial_number d sn).2.uirb_serial_number.number = sn) := by
  refine ⟨?_, ?_, ?_, ?_, ?_⟩
  · intro h
    unfold get_uirb_board_serial_number
    rw [if_pos (Or.inl h)]
  · intro h
    unfold get_uirb_board_serial_number
    rw [if_pos (Or.inr h)]
  · unfold set_uirb_board_serial_number UIRB_SERIAL_NUMBER_MAX
    split_ifs with h
    · simp only [Bool.false_eq_true, false_iff]
      omega
    · simp only [true_iff]
      omega
  · intro h
    unfold set_uirb_board_serial_number UIRB_SERIAL_NUMBER_MAX
    rw [if_pos h]
  · intro h1 h2
    unfold set_uirb_board_serial_number UIRB_SERIAL_NUMBER_MAX
    rw [if_neg (by omega)]
    show sn % 16384 = sn
    omega

/-- C10 witness: the all-ones debug serial record (reserved_bit_1 = 1,
payload 16383) reads back invalid; setting 1234 succeeds and stores 1234;
setting 0 fails and leaves the record unchanged. -/
theorem C10_witness :
    get_uirb_board_serial_number DEBUG_EEPROM_DATA = INVALID_UIRB_SERIAL_NUMBER
  ∧ (set_uirb_board_serial_number sampleConfiguredData 1234).2.uirb_serial_number.number = 1234
  ∧ set_uirb_board_serial_number sampleConfiguredData 0 = (false, sampleConfiguredData) :=
  ⟨(C10_serial_number DEBUG_EEPROM_DATA 1 (by norm_num)).1 rfl,
   (C10_serial_number sampleConfiguredData 1234 (by norm_num)).2.2.2.2
     (by norm_num) (by norm_num),
   (C10_serial_number sampleConfiguredData 0 (by norm_num)).2.2.2.1
     (Or.inl rfl)⟩

/-- C1 counterexample: on a plain input with the valid 5000 ohm resistor, a
pin voltage of exactly 1100 mV does not give the 0 mA the claim asserts for
that edge; the code only zeroes strictly above 1100 mV and computes the
formula here, 1100 * 1000 / 5000 = 220 mA. -/
theorem C1_counterexample :
    prog_milivolts_to_charging_current_miliamps 1100 5000 INPUT false = 220
  ∧ (220 : Nat) ≠ 0 := by
  decide

/-- C1 amended: for a valid (non-sentinel, nonzero) resistor, a sentinel pin
voltage yields the invalid-current sentinel in every mode; for a measured
voltage, output-high yields 0, output-low and input-pullup yield the unknown
sentinel, and a plain input yields 0 exactly when the voltage is strictly
above 1100 mV or strictly below 15 mV (1100 and 15 themselves are computed),
otherwise the uint16 narrowing of v*1000/R with a computed 0 clamped to 1. -/
theorem C1_charging_current (v R : Nat) (state : Bool)
    (hv : v ≤ 65535) (hR : R ≤ 65535) (hR0 : R ≠ 0)
    (hR1 : R ≠ INVALID_CHARGER_PROG_RESISTANCE) :
    (v = INVALID_VOLTAGE_MILIVOLTS →
      prog_milivolts_to_charging_current_miliamps v R OUTPUT state
          = INVALID_CURRENT_MILIAMPS
      ∧ prog_milivolts_to_charging_current_miliamps v R INPUT_PULLUP state
          = INVALID_CURRENT_MILIAMPS
      ∧ prog_milivolts_to_charging_current_miliamps v R INPUT state
          = INVALID_CURRENT_MILIAMPS)
  ∧ (v ≠ INVALID_VOLTAGE_MILIVOLTS →
      prog_milivolts_to_charging_current_miliamps v R OUTPUT true = 0
      ∧ prog_milivolts_to_charging_current_miliamps v R OUTPUT false
          = UNKNOWN_CURRENT_MILIAMPS
      ∧ prog_milivolts_to_charging_current_miliamps v R INPUT_PULLUP state
          = UNKNOWN_CURRENT_MILIAMPS
      ∧ (PROG_CC_CHARGE_VOLTAGE_MAX_MV < v ∨ v < PROG_FLOAT_VOLTAGE_MAX_MV →
          prog_milivolts_to_charging_current_miliamps v R INPUT state = 0)
      ∧ (PROG_FLOAT_VOLTAGE_MAX_MV ≤ v → v ≤ PROG_CC_CHARGE_VOLTAGE_MAX_MV →
          prog_milivolts_to_charging_current_miliamps v R INPUT state
            = (if v * 1000 / R = 0 then 1 else v * 1000 / R) % 65536)) := by
  simp only [INVALID_CHARGER_PROG_RESISTANCE] at hR1
  constructor
  · intro h
    subst h
    refine ⟨?_, ?_, ?_⟩ <;>
      simp [prog_milivolts_to_charging_current_miliamps,
        INVALID_VOLTAGE_MILIVOLTS, INVALID_CURRENT_MILIAMPS]
  · intro h
    simp only [INVALID_VOLTAGE_MILIVOLTS] at h
    refine ⟨?_, ?_, ?_, ?_, ?_⟩
    · simp [prog_milivolts_to_charging_current_miliamps, OUTPUT,
        INVALID_VOLTAGE_MILIVOLTS, INVALID_CHARGER_PROG_RESISTANCE,
        INVALID_PIN_MODE, h, hR0, hR1]
    · simp [prog_milivolts_to_charging_current_miliamps, OUTPUT,
        INVALID_VOLTAGE_MILIVOLTS, INVALID_CHARGER_PROG_RESISTANCE,
        INVALID_PIN_MODE, UNKNOWN_CURRENT_MILIAMPS, h, hR0, hR1]
    · simp [prog_milivolts_to_charging_current_miliamps, OUTPUT, INPUT_PULLUP,
        INVALID_VOLTAGE_MILIVOLTS, INVALID_CHARGER_PROG_RESISTANCE,
        INVALID_PIN_MODE, UNKNOWN_CURRENT_MILIAMPS, h, hR0, hR1]
    · intro h2
      simp only [PROG_CC_CHARGE_VOLTAGE_MAX_MV, PROG_FLOAT_VOLTAGE_MAX_MV] at h2
      simp [prog_milivolts_to_charging_current_miliamps, OUTPUT, INPUT_PULLUP,
        INPUT, INVALID_VOLTAGE_MILIVOLTS, INVALID_CHARGER_PROG_RESISTANCE,
        INVALID_PIN_MODE, PROG_CC_CHARGE_VOLTAGE_MAX_MV,
        PROG_FLOAT_VOLTAGE_MAX_MV, h, hR0, hR1, h2]
    · intro h2 h3
      simp only [PROG_CC_CHARGE_VOLTAGE_MAX_MV, PROG_FLOAT_VOLTAGE_MAX_MV]
        at h2 h3
      have h4 : ¬ (1100 < v ∨ v < 15) := by omega
      simp [prog_milivolts_to_charging_current_miliamps, OUTPUT, INPUT_PULLUP,
        INPUT, INVALID_VOLTAGE_MILIVOLTS, INVALID_CHARGER_PROG_RESISTANCE,
        INVALID_PIN_MODE, PROG_CC_CHARGE_VOLTAGE_MAX_MV,
        PROG_FLOAT_VOLTAGE_MAX_MV, h, hR0, hR1, h4]

/-- C1 witness: the worked example of the claim, 1000 mV into 5000 ohm on a
plain input, computes 200 mA, and output-high at the same voltage gives 0. -/
theorem C1_witness :
    prog_milivolts_to_charging_current_miliamps 1000 5000 INPUT false = 200
  ∧ prog_milivolts_to_charging_current_miliamps 1000 5000 OUTPUT true = 0 := by
  have h := (C1_charging_current 1000 5000 false (by norm_num) (by norm_num)
    (by norm_num) (by decide)).2 (by decide)
  exact ⟨(h.2.2.2.2 (by decide) (by decide)).trans (by norm_num), h.1⟩

/-- Reachable cached state exhibiting the C4 divergence: all three
measurements valid, derived current 0 mA, pin voltage 1200 mV (above the CC
window) and supply 4000 mV. -/
def c4FailingState : PowerInfoState :=
  { supply_voltage_milivolts_ := 4000
    prog_voltage_milivolts_ := 1200
    prog_pin_mode_ := INPUT
    prog_pin_state_ := false
    charging_current_miliamps_ := 0
    estimated_charger_state_ := ChargerState.UNKNOWN
    estimated_battery_state_ := BatteryState.UNKNOWN }

/-- C4: evaluation at the failing input. With current 0 mA, pin voltage
1200 mV and supply 4000 mV (all valid, current not the unknown sentinel) the
code returns CHARGING_CC, because its third rule fires for any pin voltage at
or above 900 mV with no 1100 mV upper bound; the ordered rules of the claim say
rule 3 must not apply above 1100 mV and rule 5 (FLOATING, supply >= 4000 mV)
applies instead. The second conjunct shows the input is reachable: a 1200 mV
input-mode pin with a valid resistor derives exactly 0 mA. -/
theorem C4_code_divergence :
    c4FailingState.get_estimated_charger_state = ChargerState.CHARGING_CC
  ∧ prog_milivolts_to_charging_current_miliamps 1200 5000 INPUT false = 0
  ∧ PROG_CC_CHARGE_VOLTAGE_MAX_MV < c4FailingState.prog_voltage_milivolts_
  ∧ FLOAT_VOLTAGE_RECHARGE_MIN_MV ≤ c4FailingState.supply_voltage_milivolts_ := by
  decide

/-- Cached power sample used as the C2 counterexample starting state. -/
def c2CachedState : PowerInfoState :=
  { supply_voltage_milivolts_ := 3700
    prog_voltage_milivolts_ := 1000
    prog_pin_mode_ := INPUT
    prog_pin_state_ := false
    charging_current_miliamps_ := 200
    estimated_charger_state_ := ChargerState.CHARGING_CC
    estimated_battery_state_ := BatteryState.CHARGING }

/-- Environment for the C2 counterexample: initialization succeeded, one
sample requested, but the supply-voltage measurement comes back invalid. -/
def c2InvalidSupplyEnv : PowerEnv :=
  { beginResult := CoreResult.SUCCESS
    supplySample := 65535
    progSample := 1000
    pinMode := 0
    pinState := false
    resistor := 5000 }

/-- C2 counterexample: with a valid cached sample and an invalid supply
measurement, update returns false but does not leave the cached state
untouched — the cached supply voltage is overwritten with the sentinel. -/
theorem C2_counterexample :
    (c2CachedState.update c2InvalidSupplyEnv 1).1 = false
  ∧ (c2CachedState.update c2InvalidSupplyEnv 1).2 ≠ c2CachedState
  ∧ (c2CachedState.update c2InvalidSupplyEnv 1).2.supply_voltage_milivolts_
      = INVALID_VOLTAGE_MILIVOLTS := by
  decide

/-- C2 amended: update returns false whenever the sample count is zero, the
facade initialization failed, or any measurement (including the derived
current) is invalid; with a zero sample count or failed initialization the
whole cached state is untouched; on an invalid measurement only the derived
charger and battery states are guaranteed unchanged, while the raw sampled
fields are overwritten with the fresh samples whenever the call gets past the
initial guard. -/
theorem C2_update_failure (s : PowerInfoState) (env : PowerEnv)
    (samples : Nat) :
    (samples = 0 → s.update env samples = (false, s))
  ∧ (env.beginResult ≠ CoreResult.SUCCESS → s.update env samples = (false, s))
  ∧ ((env.supplySample = INVALID_VOLTAGE_MILIVOLTS ∨
      env.progSample = INVALID_VOLTAGE_MILIVOLTS ∨
      env.pinMode = INVALID_PIN_MODE ∨
      prog_milivolts_to_charging_current_miliamps env.progSample env.resistor
        env.pinMode env.pinState = INVALID_CURRENT_MILIAMPS) →
      (s.update env samples).1 = false
      ∧ (s.update env samples).2.estimated_charger_state_
          = s.estimated_charger_state_
      ∧ (s.update env samples).2.estimated_battery_state_
          = s.estimated_battery_state_)
  ∧ (env.beginResult = CoreResult.SUCCESS → samples ≠ 0 →
      (s.update env samples).2.supply_voltage_milivolts_ = env.supplySample
      ∧ (s.update env samples).2.prog_voltage_milivolts_ = env.progSample
      ∧ (s.update env samples).2.prog_pin_mode_ = env.pinMode) := by
  refine ⟨?_, ?_, ?_, ?_⟩
  · intro h
    unfold PowerInfoState.update
    rw [if_pos (Or.inr h)]
  · intro h
    unfold PowerInfoState.update
    rw [if_pos (Or.inl h)]
  · intro h
    by_cases hb : env.beginResult = CoreResult.SUCCESS
    · by_cases hs : samples = 0
      · unfold PowerInfoState.update
        rw [if_pos (Or.inr hs)]
        exact ⟨rfl, rfl, rfl⟩
      · unfold PowerInfoState.update
        rw [if_neg (by simp [hb, hs])]
        by_cases hval : env.supplySample ≠ INVALID_VOLTAGE_MILIVOLTS ∧
            env.progSample ≠ INVALID_VOLTAGE_MILIVOLTS ∧
            env.pinMode ≠ INVALID_PIN_MODE
        · rw [if_pos hval]
          have hcur : prog_milivolts_to_charging_current_miliamps
              env.progSample env.resistor env.pinMode env.pinState
              = INVALID_CURRENT_MILIAMPS := by
            rcases h with h | h | h | h
            · exact absurd h hval.1
            · exact absurd h hval.2.1
            · exact absurd h hval.2.2
            · exact h
          rw [if_neg (by simpa using hcur)]
          exact ⟨rfl, rfl, rfl⟩
        · rw [if_neg hval]
          exact ⟨rfl, rfl, rfl⟩
    · unfold PowerInfoState.update
      rw [if_pos (Or.inl hb)]
      exact ⟨rfl, rfl, rfl⟩
  · intro hb hs
    unfold PowerInfoState.update
    rw [if_neg (by simp [hb, hs])]
    by_cases hval : env.supplySample ≠ INVALID_VOLTAGE_MILIVOLTS ∧
        env.progSample ≠ INVALID_VOLTAGE_MILIVOLTS ∧
        env.pinMode ≠ INVALID_PIN_MODE
    · rw [if_pos hval]
      by_cases hcur : prog_milivolts_to_charging_current_miliamps
          env.progSample env.resistor env.pinMode env.pinState
          ≠ INVALID_CURRENT_MILIAMPS
      · rw [if_pos hcur]
        exact ⟨rfl, rfl, rfl⟩
      · rw [if_neg hcur]
        exact ⟨rfl, rfl, rfl⟩
    · rw [if_neg hval]
      exact ⟨rfl, rfl, rfl⟩

/-- C2 witness: the amended theorem applied at the counterexample input — the
call returns false, the derived states are untouched, and the sampled supply
field is overwritten. -/
theorem C2_witness :
    ((c2CachedState.update c2InvalidSupplyEnv 1).1 = false
      ∧ (c2CachedState.update c2InvalidSupplyEnv 1).2.estimated_charger_state_
          = c2CachedState.estimated_charger_state_
      ∧ (c2CachedState.update c2InvalidSupplyEnv 1).2.estimated_battery_state_
          = c2CachedState.estimated_battery_state_)
  ∧ (c2CachedState.update c2InvalidSupplyEnv 1).2.supply_voltage_milivolts_
      = c2InvalidSupplyEnv.supplySample :=
  ⟨(C2_update_failure c2CachedState c2InvalidSupplyEnv 1).2.2.1
      (Or.inl (by decide)),
   ((C2_update_failure c2CachedState c2InvalidSupplyEnv 1).2.2.2
      (by decide) (by decide)).1⟩

/-- Initial wake-flag state: all four flags clear. -/
def initWakeFlags : WakeFlags :=
  { isr_wakeup_button_flag_ := false
    isr_wakeup_io3_flag_ := false
    isr_wakeup_button_flag_internal_ := false
    isr_wakeup_io3_flag_internal_ := false }

/-- C3: evaluation at the failing input. In a sleep cycle where both sources
are armed, both callbacks are registered, the button did NOT fire and the IO3
pin-change interrupt DID fire, the code invokes the button callback and does
not invoke the IO3 callback — because usb_io3_wakeup_isr sets
isr_wakeup_button_flag_internal_ instead of isr_wakeup_io3_flag_internal_,
and the latter is never set by any path, so the IO3 callback can never run. -/
theorem C3_code_divergence :
    (powerDownWakePhase true true false true true true initWakeFlags).1 = true
  ∧ (powerDownWakePhase true true false true true true initWakeFlags).2.1 = false
  ∧ ∀ (aW aI bF iF hB hI : Bool) (f : WakeFlags),
      (powerDownWakePhase aW aI bF iF hB hI f).2.1 = false := by
  refine ⟨by decide, by decide, ?_⟩
  intro aW aI bF iF hB hI f
  cases aW <;> cases aI <;> cases bF <;> cases iF <;> cases hB <;> cases hI <;> rfl

/-- Facade state with a failed (sticky) initialization result, used as the C5
counterexample. -/
def c5FailedInit : UIRBState :=
  { initializationResult_ := CoreResult.ERROR_EEPROM_SAVE_FAILED
    eepromDataManager_ := sampleConfiguredData
    eeprom_storage := sampleConfiguredData }

/-- C5 counterexample: with the initialization result not SUCCESS,
setStatusLEDBrightness still mutates the RAM mirror — it does not consult the
cached initialization result, contradicting the claim that every public
operation refuses to act. -/
theorem C5_counterexample :
    c5FailedInit.initializationResult_ ≠ CoreResult.SUCCESS
  ∧ (c5FailedInit.setStatusLEDBrightness 42).eepromDataManager_
      ≠ c5FailedInit.eepromDataManager_ := by
  decide

/-- C5 amended: only the persistence step consults the sticky initialization
result — saveToEEPROM returns false and changes nothing when it is not
SUCCESS (so the save-variant of setStatusLEDBrightness reports failure) — but
the RAM-mirror setters such as setStatusLEDBrightness and setSleepingAllowed
mutate the mirror unconditionally. -/
theorem C5_init_gate (u : UIRBState) (b : Nat) (a : Bool)
    (h : u.initializationResult_ ≠ CoreResult.SUCCESS) :
    u.saveToEEPROM = (false, u)
  ∧ (u.setStatusLEDBrightnessSave b true).1 = false
  ∧ (u.setStatusLEDBrightness b).eepromDataManager_.stat_led_brightness = b
  ∧ (u.setSleepingAllowed a).eepromDataManager_.software_config.sleep_mode_allowed
      = a := by
  refine ⟨?_, ?_, rfl, rfl⟩
  · unfold UIRBState.saveToEEPROM
    rw [if_pos h]
  · unfold UIRBState.setStatusLEDBrightnessSave
    rw [if_neg (by simp)]
    unfold UIRBState.saveToEEPROM
    rw [if_pos (by simpa [UIRBState.setStatusLEDBrightness] using h)]

/-- C5 witness: the amended theorem applied to a facade whose initialization
ended in ERROR_EEPROM_SAVE_FAILED. -/
theorem C5_witness :
    c5FailedInit.saveToEEPROM = (false, c5FailedInit)
  ∧ (c5FailedInit.setStatusLEDBrightnessSave 42 true).1 = false
  ∧ (c5FailedInit.setStatusLEDBrightness 42).eepromDataManager_.stat_led_brightness
      = 42
  ∧ (c5FailedInit.setSleepingAllowed false).eepromDataManager_.software_config.sleep_mode_allowed
      = false :=
  C5_init_gate c5FailedInit 42 false (by decide)

theorem wdtInterval_le (i : Nat) : wdtInterval i ≤ 8000 := by
  unfold wdtInterval
  split_ifs <;> omega

theorem wdtInterval_pos (i : Nat) : 0 < wdtInterval i := by
  unfold wdtInterval
  split_ifs <;> omega

theorem wdtInterval_mem (i : Nat) (hi : i ≤ 9) :
    wdtInterval i ∈ [16, 32, 64, 125, 250, 500, 1000, 2000, 4000, 8000] := by
  interval_cases i <;> decide

theorem choosePeriod_le (r p : Nat) (hp : p ≤ 9) : choosePeriod r p ≤ 9 := by
  unfold choosePeriod
  split_ifs <;> omega

theorem choosePeriod_fits (r p : Nat) (hr : 16 ≤ r) :
    wdtInterval (choosePeriod r p) ≤ r := by
  have e0 : wdtInterval 0 = 16 := rfl
  have e1 : wdtInterval 1 = 32 := rfl
  have e2 : wdtInterval 2 = 64 := rfl
  have e3 : wdtInterval 3 = 125 := rfl
  have e4 : wdtInterval 4 = 250 := rfl
  have e5 : wdtInterval 5 = 500 := rfl
  have e6 : wdtInterval 6 = 1000 := rfl
  have e7 : wdtInterval 7 = 2000 := rfl
  have e8 : wdtInterval 8 = 4000 := rfl
  have e9 : wdtInterval 9 = 8000 := rfl
  unfold choosePeriod
  split_ifs <;> omega

theorem powerDownLoop_nil (fired : Nat → Bool) (k p : Nat) :
    powerDownLoop fired k 0 p = [] := by
  unfold powerDownLoop
  rfl

theorem powerDownLoop_cons (fired : Nat → Bool) (k r p : Nat) (h : r ≠ 0) :
    powerDownLoop fired k r p =
      wdtInterval (choosePeriod r p) ::
        powerDownLoop fired (k + 1)
          (if fired k then 0
           else if wdtInterval (choosePeriod r p) < r then
             r - wdtInterval (choosePeriod r p)
           else 0)
          (choosePeriod r p) := by
  conv_lhs => unfold powerDownLoop
  rw [dif_neg h]

theorem powerDownLoop_sum_bounds (fired : Nat → Bool)
    (hf : ∀ n, fired n = false) :
    ∀ r k p, p ≤ 9 →
      r ≤ (powerDownLoop fired k r p).sum ∧
      (powerDownLoop fired k r p).sum ≤ r + 7999 := by
  intro r
  induction r using Nat.strong_induction_on with
  | _ r ih =>
    intro k p hp
    by_cases h0 : r = 0
    · subst h0
      rw [powerDownLoop_nil]
      simp
    · rw [powerDownLoop_cons fired k r p h0, hf k]
      have hred :
          (if false = true then 0
           else if wdtInterval (choosePeriod r p) < r then
             r - wdtInterval (choosePeriod r p)
           else 0)
          = (if wdtInterval (choosePeriod r p) < r then
              r - wdtInterval (choosePeriod r p)
             else 0) := by
        simp
      rw [hred]
      have hp9 : choosePeriod r p ≤ 9 := choosePeriod_le r p hp
      have hle : wdtInterval (choosePeriod r p) ≤ 8000 :=
        wdtInterval_le (choosePeriod r p)
      have hpos : 0 < wdtInterval (choosePeriod r p) :=
        wdtInterval_pos (choosePeriod r p)
      by_cases hir : wdtInterval (choosePeriod r p) < r
      · rw [if_pos hir]
        have hrec := ih (r - wdtInterval (choosePeriod r p)) (by omega)
          (k + 1) (choosePeriod r p) hp9
        rw [List.sum_cons]
        omega
      · rw [if_neg hir]
        rw [powerDownLoop_nil]
        rw [List.sum_cons]
        simp only [List.sum_nil]
        omega

theorem powerDownLoop_mem (fired : Nat → Bool) :
    ∀ r k p, p ≤ 9 → ∀ x ∈ powerDownLoop fired k r p,
      x ∈ [16, 32, 64, 125, 250, 500, 1000, 2000, 4000, 8000] := by
  intro r
  induction r using Nat.strong_induction_on with
  | _ r ih =>
    intro k p hp x hx
    by_cases h0 : r = 0
    · subst h0
      rw [powerDownLoop_nil] at hx
      simp at hx
    · rw [powerDownLoop_cons fired k r p h0] at hx
      have hp9 : choosePeriod r p ≤ 9 := choosePeriod_le r p hp
      have hpos : 0 < wdtInterval (choosePeriod r p) :=
        wdtInterval_pos (choosePeriod r p)
      rcases List.mem_cons.mp hx with hx | hx
      · subst hx
        exact wdtInterval_mem (choosePeriod r p) hp9
      · by_cases hfk : fired k
        · rw [if_pos hfk, powerDownLoop_nil] at hx
          simp at hx
        · rw [if_neg hfk] at hx
          by_cases hir : wdtInterval (choosePeriod r p) < r
          · rw [if_pos hir] at hx
            exact ih (r - wdtInterval (choosePeriod r p)) (by omega)
              (k + 1) (choosePeriod r p) hp9 x hx
          · rw [if_neg hir, powerDownLoop_nil] at hx
            simp at hx

/-- C7: for a bounded sleep request with no interrupt firing, the armed
watchdog intervals sum to at least the requested duration and to at most the
requested duration plus 7999 ms; every armed interval is drawn from the
discrete table 16..8000 ms; and as soon as an edge interrupt fires during an
armed interval the remaining time is forced to zero, so that interval is the
last one — no further interval is armed. -/
theorem C7_sleep_decomposition (t : Nat) (fired : Nat → Bool) (ht : 1 ≤ t) :
    (t ≤ (powerDownIntervals (fun _ => false) t).sum
      ∧ (powerDownIntervals (fun _ => false) t).sum ≤ t + 7999)
  ∧ (∀ x ∈ powerDownIntervals fired t,
      x ∈ [16, 32, 64, 125, 250, 500, 1000, 2000, 4000, 8000])
  ∧ (∀ k r p, r ≠ 0 → fired k = true →
      powerDownLoop fired k r p = [wdtInterval (choosePeriod r p)]) := by
  refine ⟨?_, ?_, ?_⟩
  · unfold powerDownIntervals
    rw [if_pos (by omega)]
    exact powerDownLoop_sum_bounds (fun _ => false) (fun _ => rfl) t 0 0
      (by omega)
  · unfold powerDownIntervals
    rw [if_pos (by omega)]
    exact powerDownLoop_mem fired t 0 0 (by omega)
  · intro k r p hr hfk
    rw [powerDownLoop_cons fired k r p hr, hfk]
    rw [if_pos rfl, powerDownLoop_nil]

/-- C7 witness: the worked example of the claim — a 10000 ms request with no
interrupt decomposes into intervals summing to between 10000 and 17999 ms. -/
theorem C7_witness :
    10000 ≤ (powerDownIntervals (fun _ => false) 10000).sum
  ∧ (powerDownIntervals (fun _ => false) 10000).sum ≤ 10000 + 7999 :=
  (C7_sleep_decomposition 10000 (fun _ => false) (by omega)).1

end uirbcore
